import Mathlib

/-!
Verification of the startup orchestration of the Discord-System-V4 repository.

The repository holds two near-duplicate startup scripts:
* `src/bot.js` (modelled below by the `botJs*` definitions), and
* `src/unnamed/part_000` (modelled below by the `p0*` / `part000Run` definitions).

Each script is a linear, single-threaded sequence of optional initialization
steps over a client object.  We embed each script as a pure function from an
environment record (which collaborator modules resolve, which collaborator
calls throw, the shape of the constructed client, the token variables, the
contents of the scanned directories) to the finite trace of observable events
the run emits, in order.  `process.exit(code)` is modelled by an `Ev.exit code`
event that ends the trace; calls into the client logger and into the console
are distinguished events.  Logger calls in the straight-line startup flow are
modelled as non-throwing except where the source wraps them in an explicit
try/catch (the outer catch of bot.js and the process-level handlers, which are
modelled separately and in full, including a throwing `logger.error`).
-/

set_option maxHeartbeats 1000000

/-- Observable events emitted by a startup run, in program order. -/
inductive Ev where
  | envLoad
  | banner
  | validateCall
  | clientConstruct
  | installUnhandledRejection
  | installUncaughtException
  | updateCheckCall
  | dashboardBranch
  | dbBranch
  | dashboardStep
  | dbStep
  | dashboardLaunchCall
  | dbInitCall
  | loadCommandsStep
  | loadCommandTestsStep
  | loadEventsStep
  | registerEventsCall
  | fileLoadAttempt (fname : String)
  | registerCommand (cname : String)
  | registerEvent (ename : String)
  | loginCall
  | clientLog (msg : String)
  | clientWarn (msg : String)
  | clientError (msg : String)
  | consoleLog (msg : String)
  | consoleWarn (msg : String)
  | consoleError (msg : String)
  | exit (code : Nat)
deriving DecidableEq, Repr

/-- The shape of `client.logger` as the scripts observe it. -/
structure Logger where
  present : Bool
  hasLog : Bool
  hasWarn : Bool
  hasError : Bool
  errorThrows : Bool
deriving DecidableEq, Repr

/-- The shape of the constructed client object as the scripts observe it. -/
structure Client where
  logger : Logger
  dashboardEnabled : Bool
  hasLoadCommands : Bool
  loadCommandsThrows : Bool
  hasLoadCommandTests : Bool
  loadCommandTestsThrows : Bool
  hasLoadEvents : Bool
  loadEventsThrows : Bool
  hasRegisterEvents : Bool
  registerEventsThrows : Bool
  hasCommandsMap : Bool
  hasLogin : Bool
  loginThrows : Bool
deriving DecidableEq, Repr

/-- `client.logger && client.logger.log && client.logger.log(msg)` (bot.js guard). -/
def clogLog (c : Client) (msg : String) : List Ev :=
  if c.logger.present && c.logger.hasLog then [Ev.clientLog msg] else []

/-- `client.logger && client.logger.warn && client.logger.warn(msg)` (bot.js guard). -/
def clogWarn (c : Client) (msg : String) : List Ev :=
  if c.logger.present && c.logger.hasWarn then [Ev.clientWarn msg] else []

/-- `client.logger && client.logger.error && client.logger.error(msg)` (bot.js guard). -/
def clogError (c : Client) (msg : String) : List Ev :=
  if c.logger.present && c.logger.hasError then [Ev.clientError msg] else []

/-- The `MinimalBotClient` fallback of bot.js: a logger with `log` and `error`
only, `DASHBOARD.enabled = false`, non-throwing loaders, a `login` that only
throws on a missing token (it is always called with a present token). -/
def minimalBotClient : Client where
  logger := { present := true, hasLog := true, hasWarn := false,
              hasError := true, errorThrows := false }
  dashboardEnabled := false
  hasLoadCommands := true
  loadCommandsThrows := false
  hasLoadCommandTests := true
  loadCommandTestsThrows := false
  hasLoadEvents := true
  loadEventsThrows := false
  hasRegisterEvents := false
  registerEventsThrows := false
  hasCommandsMap := false
  hasLogin := true
  loginThrows := false

/-- The `FallbackClient` of part_000: a bare discord.js `Client` subclass with
no-op `loadCommands` / `loadEvents`, no logger, no commands map; its inherited
`login` may still fail against the remote service (`loginThrows`). -/
def fallbackClient (loginThrows : Bool) : Client where
  logger := { present := false, hasLog := false, hasWarn := false,
              hasError := false, errorThrows := false }
  dashboardEnabled := false
  hasLoadCommands := true
  loadCommandsThrows := false
  hasLoadCommandTests := false
  loadCommandTestsThrows := false
  hasLoadEvents := true
  loadEventsThrows := false
  hasRegisterEvents := false
  registerEventsThrows := false
  hasCommandsMap := false
  hasLogin := true
  loginThrows := loginThrows

/-- Environment of a `src/bot.js` run: which optional modules resolve, which
collaborator calls throw, the shape of the real `BotClient` (used when its
module resolves), and the `BOT_TOKEN` variable (`none` models unset/falsy). -/
structure BotJsEnv where
  updatesResolves : Bool
  updateThrows : Bool
  mongooseResolves : Bool
  mongooseThrows : Bool
  botClientResolves : Bool
  validatorResolves : Bool
  validatorThrows : Bool
  realClient : Client
  dashResolves : Bool
  dashLaunchIsFn : Bool
  dashLaunchThrows : Bool
  botToken : Option String
deriving DecidableEq, Repr

/-- bot.js: the client actually constructed (`BotClient` when the module
resolved, otherwise the `MinimalBotClient` fallback). -/
def botJsClient (e : BotJsEnv) : Client :=
  if e.botClientResolves then e.realClient else minimalBotClient

/-- bot.js outer catch (lines 381-397): a guarded `logger.error` wrapped in a
try/catch whose handler logs to the console, then `process.exit(1)`. -/
def botJsStartupErr (c : Client) : List Ev :=
  (if c.logger.present && c.logger.hasError then
     (if c.logger.errorThrows then [Ev.consoleError "Startup error"]
      else [Ev.clientError "Startup error"])
   else []) ++ [Ev.exit 1]

/-- bot.js lines 239-279: guarded calls to `loadCommands`, `loadCommandTests`
and `loadEvents`, each in its own try/catch that logs through the guarded
client logger and continues. -/
def botJsLoadPart (c : Client) : List Ev :=
  (if c.hasLoadCommands then
     Ev.loadCommandsStep ::
       (if c.loadCommandsThrows then clogError c "Failed to load commands:" else [])
   else []) ++
  (if c.hasLoadCommandTests then
     Ev.loadCommandTestsStep ::
       (if c.loadCommandTestsThrows then clogError c "Failed to load command tests:" else [])
   else []) ++
  (if c.hasLoadEvents then
     Ev.loadEventsStep ::
       (if c.loadEventsThrows then clogError c "Failed to load events:" else [])
   else [])

/-- bot.js lines 317-344: the dashboard branch body — require the launcher
module, call `launch` if it is a function, with all failures caught and logged
through the guarded client logger. -/
def botJsDashboardTry (e : BotJsEnv) (c : Client) : List Ev :=
  if e.dashResolves then
    (if e.dashLaunchIsFn then
       clogLog c "Launching dashboard..." ++ [Ev.dashboardLaunchCall] ++
         (if e.dashLaunchThrows then clogError c "Failed to launch dashboard" else [])
     else clogWarn c "Dashboard launch module not found or invalid.")
  else clogError c "Failed to launch dashboard"

/-- bot.js lines 347-361: the database branch body — `initializeMongoose()`
(a no-op fallback when its module did not resolve), failure caught and logged. -/
def botJsDbTry (e : BotJsEnv) (c : Client) : List Ev :=
  Ev.dbInitCall ::
    (if e.mongooseResolves && e.mongooseThrows then
       clogError c "Failed to initialize database:"
     else [])

/-- bot.js lines 365-379: the token check (`process.exit(1)` when `BOT_TOKEN`
is unset) followed by `await client.login(token)`; a missing `login` function
or a login throw reaches the outer catch, which exits 1. -/
def botJsTokenPart (e : BotJsEnv) (c : Client) : List Ev :=
  match e.botToken with
  | none => clogError c "BOT_TOKEN not set in environment. Exiting." ++ [Ev.exit 1]
  | some _ =>
    if c.hasLogin then
      Ev.loginCall ::
        (if c.loginThrows then botJsStartupErr c
         else clogLog c "Bot started successfully.")
    else botJsStartupErr c

/-- bot.js lines 307-397: the outer try — update check, then the
dashboard-XOR-database branch on `client.config.DASHBOARD.enabled`, then the
token check and login; a throw from the update check or from login reaches
the outer catch, which exits 1. -/
def botJsMainTry (e : BotJsEnv) (c : Client) : List Ev :=
  Ev.updateCheckCall ::
    (if e.updatesResolves && e.updateThrows then botJsStartupErr c
     else
       (if c.dashboardEnabled then Ev.dashboardBranch :: botJsDashboardTry e c
        else Ev.dbBranch :: botJsDbTry e c) ++ botJsTokenPart e c)

/-- The full trace of a `src/bot.js` run: dotenv load, banner, validation
(with `process.exit(1)` on a validator throw), client construction, the three
guarded loader calls, installation of the `unhandledRejection` handler, then
the outer startup try. -/
def botJsRun (e : BotJsEnv) : List Ev :=
  Ev.envLoad :: Ev.banner :: Ev.validateCall ::
    (if e.validatorResolves && e.validatorThrows then
       [Ev.consoleError "Configuration validation failed:", Ev.exit 1]
     else
       Ev.clientConstruct ::
         (botJsLoadPart (botJsClient e) ++
          Ev.installUnhandledRejection :: botJsMainTry e (botJsClient e)))

/-- Observation of the client state as the process-level handlers see it:
`client` truthiness, `client.logger` truthiness, whether `logger.error` is a
function, whether calling it throws, and whether it returns a truthy value
(part_000 chains its console fallback on the returned value with a JS or). -/
structure LoggerObs where
  clientTruthy : Bool
  loggerTruthy : Bool
  errorIsFn : Bool
  errorThrows : Bool
  errorReturnsTruthy : Bool
deriving DecidableEq, Repr

/-- The body of the bot.js `unhandledRejection` handler (inside its try):
logs through `client.logger.error` when client, logger and a function-typed
`error` are all present (which may throw), otherwise to the console. -/
def botJsRejectionBody (o : LoggerObs) : Except String (List Ev) :=
  if o.clientTruthy && o.loggerTruthy && o.errorIsFn then
    (if o.errorThrows then Except.error "logger error threw"
     else Except.ok [Ev.clientError "unhandledRejection"])
  else Except.ok [Ev.consoleError "unhandledRejection"]

/-- The full bot.js `unhandledRejection` handler: the body wrapped in a
try/catch whose catch logs to the console; it always returns normally. -/
def botJsRejectionHandler (o : LoggerObs) : List Ev :=
  match botJsRejectionBody o with
  | Except.ok evs => evs
  | Except.error _ => [Ev.consoleError "Error logging unhandledRejection:"]

/-- part_000 handler body, shared by both process handlers:
`client?.logger?.error?.(msg, e) || log.error(msg, e)` — optional chaining,
with the console fallback also running when the logger call returns falsy;
a throwing `logger.error` escapes (there is no try/catch here). -/
def p0HandlerLog (msg : String) (o : LoggerObs) : Except String (List Ev) :=
  if o.clientTruthy && o.loggerTruthy && o.errorIsFn then
    (if o.errorThrows then Except.error "logger error threw"
     else if o.errorReturnsTruthy then Except.ok [Ev.clientError msg]
     else Except.ok [Ev.clientError msg, Ev.consoleError msg])
  else Except.ok [Ev.consoleError msg]

/-- part_000 `unhandledRejection` handler. -/
def p0RejectionHandler (o : LoggerObs) : Except String (List Ev) :=
  p0HandlerLog "Unhandled Rejection:" o

/-- part_000 `uncaughtException` handler. -/
def p0UncaughtHandler (o : LoggerObs) : Except String (List Ev) :=
  p0HandlerLog "Uncaught Exception:" o

/-- A file found by the part_000 command-directory scan: its name, whether
`require` succeeds (`loads`), and the truthy `cmd.name` export if any. -/
structure CommandFile where
  fname : String
  loads : Bool
  cmdName : Option String
deriving DecidableEq, Repr

/-- A file found by the part_000 event-directory scan: its name, whether
`require` succeeds, the truthy `ev.name` export if any, whether the export is
itself a function, and whether it is a truthy object with a function-typed
`execute`. -/
structure EventFile where
  fname : String
  loads : Bool
  evName : Option String
  isFunction : Bool
  hasExecute : Bool
deriving DecidableEq, Repr

/-- `path.basename(file, ".js")` for a bare file name from `readdirSync`. -/
def basenameJs (s : String) : String :=
  if s.endsWith ".js" then s.dropRight 3 else s

/-- One iteration of the part_000 command-scan loop: `require` the file
(warn and continue on a throw); on success register `cmd.name` into
`client.commands` when the map exists and the name is truthy. -/
def scanCommandFile (hasMap : Bool) (f : CommandFile) : List Ev :=
  Ev.fileLoadAttempt f.fname ::
    (if f.loads then
       (match f.cmdName with
        | some n => if hasMap then [Ev.registerCommand n] else []
        | none => [])
     else [Ev.consoleWarn "Failed to load command"])

/-- The part_000 command-scan loop over the (already `.js`-filtered) file
list; each file is handled in its own try/catch, so the loop never aborts. -/
def scanCommands (hasMap : Bool) : List CommandFile → List Ev
  | [] => []
  | f :: fs => scanCommandFile hasMap f ++ scanCommands hasMap fs

/-- One iteration of the part_000 event-scan loop: `require` the file (warn
and continue on a throw); on success bind the handler under
`ev.name || path.basename(file, ".js")` when the export is a function or has
a function-typed `execute`. -/
def scanEventFile (f : EventFile) : List Ev :=
  Ev.fileLoadAttempt f.fname ::
    (if f.loads then
       (if f.isFunction then [Ev.registerEvent (f.evName.getD (basenameJs f.fname))]
        else if f.hasExecute then [Ev.registerEvent (f.evName.getD (basenameJs f.fname))]
        else [])
     else [Ev.consoleWarn "Failed to load event"])

/-- The part_000 event-scan loop over the (already `.js`-filtered) file list;
per-file try/catch, the loop never aborts. -/
def scanEvents : List EventFile → List Ev
  | [] => []
  | f :: fs => scanEventFile f ++ scanEvents fs

/-- One candidate dashboard-launcher path of part_000: whether the file
exists, whether `require` succeeds, whether it exports a function-typed
`launch`, whether the module itself is a function, and whether the launch
call throws. -/
structure DashSpot where
  present : Bool
  requireOk : Bool
  hasLaunch : Bool
  isFn : Bool
  launchThrows : Bool
deriving DecidableEq, Repr

/-- part_000 `tryLaunchDashboard`, one path: returns its events and whether
the dashboard was successfully launched (ending the scan). -/
def tryDashSpot (s : DashSpot) : List Ev × Bool :=
  if s.present then
    (if s.requireOk then
       (if s.hasLaunch then
          (if s.launchThrows then ([Ev.consoleWarn "Dashboard launcher failed:"], false)
           else ([Ev.dashboardLaunchCall, Ev.consoleLog "Dashboard launched via"], true))
        else if s.isFn then
          (if s.launchThrows then ([Ev.consoleWarn "Dashboard launcher failed:"], false)
           else ([Ev.dashboardLaunchCall, Ev.consoleLog "Dashboard launched via"], true))
        else ([Ev.consoleWarn "Dashboard file found but no launch function in"], false))
     else ([Ev.consoleWarn "Dashboard launcher failed:"], false))
  else ([], false)

/-- part_000 `tryLaunchDashboard` path loop. -/
def scanDash : List DashSpot → List Ev × Bool
  | [] => ([], false)
  | s :: rest =>
    let r := tryDashSpot s
    if r.2 then r
    else
      let r2 := scanDash rest
      (r.1 ++ r2.1, r2.2)

/-- Environment of a `src/unnamed/part_000` run. -/
structure P0Env where
  updatesIsFn : Bool
  updateThrows : Bool
  mongooseIsFn : Bool
  mongooseThrows : Bool
  validatorIsFn : Bool
  validatorThrows : Bool
  botClientResolves : Bool
  discordResolves : Bool
  realClient : Client
  fallbackLoginThrows : Bool
  commandsDirExists : Bool
  commandFiles : List CommandFile
  eventsDirExists : Bool
  eventFiles : List EventFile
  dashSpots : List DashSpot
  rootDashResolves : Bool
  rootDashHasLaunch : Bool
  rootDashLaunchThrows : Bool
  botToken : Option String
  tokenAlt : Option String
deriving DecidableEq, Repr

/-- part_000: the client actually constructed (`BotClient` when its module
resolved, otherwise `FallbackClient`; unreachable when discord.js is also
missing). -/
def p0ClientOf (e : P0Env) : Client :=
  if e.botClientResolves then e.realClient else fallbackClient e.fallbackLoginThrows

/-- part_000 lines 99-110: configuration validation — invoked only when the
validator resolved to a function; a throw is caught and logged, execution
continues either way. -/
def p0ValidatePart (e : P0Env) : List Ev :=
  if e.validatorIsFn then
    Ev.validateCall ::
      (if e.validatorThrows then [Ev.consoleError "Configuration validation failed:"]
       else [Ev.consoleLog "Configuration validated."])
  else [Ev.consoleLog "No configuration validator found (optional)."]

/-- part_000 lines 113-122: update check — invoked only when it resolved to a
function; a throw is caught and logged as a warning, execution continues. -/
def p0UpdatePart (e : P0Env) : List Ev :=
  if e.updatesIsFn then
    Ev.updateCheckCall ::
      (if e.updateThrows then [Ev.consoleWarn "Error while checking for updates (continuing):"]
       else [Ev.consoleLog "Update check complete."])
  else [Ev.consoleLog "No update checker found (optional)."]

/-- part_000 lines 125-134: unconditional (non-branching) database-init step;
a throw is caught and logged as a warning, execution continues. -/
def p0MongoosePart (e : P0Env) : List Ev :=
  Ev.dbStep ::
    (if e.mongooseIsFn then
       Ev.dbInitCall ::
         (if e.mongooseThrows then [Ev.consoleWarn "Failed to initialize mongoose (continuing):"]
          else [Ev.consoleLog "Mongoose initialized."])
     else [Ev.consoleLog "No mongoose initializer found (skipping DB init)."])

/-- part_000 lines 160-179: the directory-scan fallback of `tryLoadCommands`. -/
def commandsFallback (c : Client) (e : P0Env) : List Ev :=
  if e.commandsDirExists then
    scanCommands c.hasCommandsMap (e.commandFiles.filter (fun f => f.fname.endsWith ".js")) ++
      [Ev.consoleLog "Commands loaded from src/commands (fallback)."]
  else [Ev.consoleLog "No commands loader found or commands folder not present; skipping commands load."]

/-- part_000 `tryLoadCommands`: prefer `client.loadCommands()` (its throw is
caught, logged as a warning, and falls through to the scan), else scan the
commands directory. -/
def tryLoadCommands (c : Client) (e : P0Env) : List Ev :=
  if c.hasLoadCommands then
    Ev.loadCommandsStep ::
      (if c.loadCommandsThrows then
         Ev.consoleWarn "client.loadCommands() threw an error:" :: commandsFallback c e
       else [Ev.consoleLog "Commands loaded via client.loadCommands()."])
  else commandsFallback c e

/-- part_000 lines 194-216: the directory-scan fallback of `tryLoadEvents`. -/
def eventsFallback (e : P0Env) : List Ev :=
  if e.eventsDirExists then
    scanEvents (e.eventFiles.filter (fun f => f.fname.endsWith ".js")) ++
      [Ev.consoleLog "Events loaded from src/events (fallback)."]
  else [Ev.consoleLog "No events loader found or events folder not present; skipping events load."]

/-- part_000 `tryLoadEvents`: prefer `client.loadEvents()` (its throw is
caught, logged as a warning, and falls through to the scan), else scan the
events directory. -/
def tryLoadEvents (c : Client) (e : P0Env) : List Ev :=
  if c.hasLoadEvents then
    Ev.loadEventsStep ::
      (if c.loadEventsThrows then
         Ev.consoleWarn "client.loadEvents() threw an error:" :: eventsFallback e
       else [Ev.consoleLog "Events loaded via client.loadEvents()."])
  else eventsFallback e

/-- part_000 lines 233-242: optional `client.registerEvents(eventsDir)` call,
errors ignored. -/
def registerEventsPart (c : Client) (e : P0Env) : List Ev :=
  if c.hasRegisterEvents && e.eventsDirExists then
    Ev.registerEventsCall ::
      (if c.registerEventsThrows then []
       else [Ev.consoleLog "client.registerEvents(eventsDir) invoked."])
  else []

/-- part_000 `tryLaunchDashboard`: scan the four candidate launcher paths,
then fall back to requiring `./dashboard`; every failure is caught inside, so
the step itself never throws and never exits. -/
def tryLaunchDashboard (e : P0Env) : List Ev :=
  Ev.dashboardStep ::
    (let r := scanDash e.dashSpots
     if r.2 then r.1
     else
       r.1 ++
         (if e.rootDashResolves && e.rootDashHasLaunch then
            (if e.rootDashLaunchThrows then
               [Ev.consoleLog "No dashboard detected or launcher failed; skipping dashboard start."]
             else [Ev.dashboardLaunchCall, Ev.consoleLog "Dashboard launched via ./dashboard export."])
          else [Ev.consoleLog "No dashboard detected or launcher failed; skipping dashboard start."]))

/-- part_000 line 298: `process.env.BOT_TOKEN || process.env.TOKEN`. -/
def p0TokenOf (e : P0Env) : Option String :=
  e.botToken.orElse (fun _ => e.tokenAlt)

/-- part_000 lines 298-314: the token check (exit 1 when both variables are
unset) and the guarded login — when `client.login` is not a function the
script logs an error and completes without exiting; a login throw exits 1. -/
def p0LoginPart (e : P0Env) (c : Client) : List Ev :=
  match p0TokenOf e with
  | none => [Ev.consoleError "No BOT_TOKEN found in environment. Set BOT_TOKEN in .env or in environment variables.", Ev.exit 1]
  | some _ =>
    if c.hasLogin then
      Ev.loginCall ::
        (if c.loginThrows then [Ev.consoleError "Failed to login:", Ev.exit 1]
         else [Ev.consoleLog "Bot logged in successfully."])
    else [Ev.consoleError "client.login is not a function. Ensure your BotClient extends discord.js Client or provides login(token)."]

/-- part_000 after client-module resolution: validation, update check,
unconditional database init, client construction, both process handlers,
command/event loading, the optional registerEvents call, the dashboard
attempt, then token check and login. -/
def p0Rest (e : P0Env) (c : Client) : List Ev :=
  p0ValidatePart e ++ p0UpdatePart e ++ p0MongoosePart e ++
    Ev.clientConstruct :: Ev.installUnhandledRejection :: Ev.installUncaughtException ::
      (tryLoadCommands c e ++ tryLoadEvents c e ++ registerEventsPart c e ++
       tryLaunchDashboard e ++ p0LoginPart e c)

/-- The full trace of a `src/unnamed/part_000` run: dotenv load, banner, the
BotClient resolution (falling back to a discord.js client, and exiting 1 only
when discord.js is also unavailable), then the rest of the startup sequence. -/
def part000Run (e : P0Env) : List Ev :=
  Ev.envLoad :: Ev.banner ::
    (if e.botClientResolves then p0Rest e e.realClient
     else
       Ev.consoleError "Could not require BotClient from src/client/BotClient. Make sure the file exists and exports the class." ::
         (if e.discordResolves then
            Ev.consoleWarn "Using fallback BotClient (discord.js Client). Replace with your actual BotClient implementation." ::
              p0Rest e (fallbackClient e.fallbackLoginThrows)
          else [Ev.consoleError "discord.js not installed. Install discord.js or provide your BotClient implementation.", Ev.exit 1]))

/-- Bool subsequence test: `inOrder ms l` holds when the markers `ms` occur in
`l` in the given relative order. -/
def inOrder : List Ev → List Ev → Bool
  | [], _ => true
  | _ :: _, [] => false
  | m :: ms, x :: xs => if x = m then inOrder ms xs else inOrder (m :: ms) xs

/-- Names registered into the command map, in order. -/
def registeredCommands (l : List Ev) : List String :=
  l.filterMap (fun x => match x with | Ev.registerCommand n => some n | _ => none)

/-- Number of event-handler registrations in a trace. -/
def registeredEventCount (l : List Ev) : Nat :=
  l.countP (fun x => match x with | Ev.registerEvent _ => true | _ => false)

/-- Number of console warnings in a trace. -/
def warnCount (l : List Ev) : Nat :=
  l.countP (fun x => match x with | Ev.consoleWarn _ => true | _ => false)

/-- Number of per-file load attempts in a trace. -/
def attemptCount (l : List Ev) : Nat :=
  l.countP (fun x => match x with | Ev.fileLoadAttempt _ => true | _ => false)

/-- A fully benign client: total logger, every capability present, nothing
throws; the dashboard flag is the parameter. -/
def benignClient (dash : Bool) : Client where
  logger := { present := true, hasLog := true, hasWarn := true,
              hasError := true, errorThrows := false }
  dashboardEnabled := dash
  hasLoadCommands := true
  loadCommandsThrows := false
  hasLoadCommandTests := true
  loadCommandTestsThrows := false
  hasLoadEvents := true
  loadEventsThrows := false
  hasRegisterEvents := false
  registerEventsThrows := false
  hasCommandsMap := true
  hasLogin := true
  loginThrows := false

/-- A bot.js environment in which every module resolves, nothing throws, and
the token is present. -/
def botJsBenignEnv (t : String) (dash : Bool) : BotJsEnv where
  updatesResolves := true
  updateThrows := false
  mongooseResolves := true
  mongooseThrows := false
  botClientResolves := true
  validatorResolves := true
  validatorThrows := false
  realClient := benignClient dash
  dashResolves := true
  dashLaunchIsFn := true
  dashLaunchThrows := false
  botToken := some t

/-- A part_000 environment in which every collaborator resolves, nothing
throws, no scan directories exist, and the token is present. -/
def p0BenignEnv (t : String) : P0Env where
  updatesIsFn := true
  updateThrows := false
  mongooseIsFn := true
  mongooseThrows := false
  validatorIsFn := true
  validatorThrows := false
  botClientResolves := true
  discordResolves := true
  realClient := benignClient false
  fallbackLoginThrows := false
  commandsDirExists := false
  commandFiles := []
  eventsDirExists := false
  eventFiles := []
  dashSpots := []
  rootDashResolves := false
  rootDashHasLaunch := false
  rootDashLaunchThrows := false
  botToken := some t
  tokenAlt := none

/-- Bool test for a process-exit event. -/
def isExit : Ev → Bool
  | Ev.exit _ => true
  | _ => false

/-- Number of process-exit events in a trace. -/
def exitCount (l : List Ev) : Nat := l.countP isExit

/-- Concrete bot.js environment with only the token missing. -/
def c1BotEnv : BotJsEnv where
  updatesResolves := true
  updateThrows := false
  mongooseResolves := true
  mongooseThrows := false
  botClientResolves := true
  validatorResolves := true
  validatorThrows := false
  realClient := benignClient false
  dashResolves := true
  dashLaunchIsFn := true
  dashLaunchThrows := false
  botToken := none

/-- Concrete part_000 environment with both token variables missing. -/
def c1P0Env : P0Env :=
  { p0BenignEnv "unused" with botToken := none, tokenAlt := none }

/-- Concrete bot.js environment whose update check throws. -/
def c2Env : BotJsEnv :=
  { botJsBenignEnv "tok" false with updateThrows := true }

/-- Concrete part_000 environment whose update check throws. -/
def c2P0Env : P0Env :=
  { p0BenignEnv "tok" with updateThrows := true }

/-- Concrete bot.js environment whose configuration validator throws. -/
def c3Env : BotJsEnv :=
  { botJsBenignEnv "tok" false with validatorThrows := true }

/-- Concrete part_000 environment whose configuration validator throws. -/
def c3P0Env : P0Env :=
  { p0BenignEnv "tok" with validatorThrows := true }

/-- Concrete bot.js environment in which the BotClient module does not
resolve (everything else benign, token present). -/
def c4Env : BotJsEnv :=
  { botJsBenignEnv "tok" false with botClientResolves := false }

/-- Concrete part_000 environment in which neither BotClient nor discord.js
resolves. -/
def c4P0Env : P0Env :=
  { p0BenignEnv "tok" with botClientResolves := false, discordResolves := false }

/-- Concrete benign bot.js environment used to exhibit the actual step order. -/
def c5Env : BotJsEnv := botJsBenignEnv "tok" false

/-- Concrete bot.js environment whose update check throws (so that neither
the dashboard branch nor the database branch is reached). -/
def c7Env : BotJsEnv :=
  { botJsBenignEnv "tok" true with updateThrows := true }

/-- Concrete benign bot.js environment used to exhibit the installed
process handlers. -/
def c8Env : BotJsEnv := botJsBenignEnv "tok" true

/-- Concrete part_000 environment whose client exposes no login function
(token present). -/
def c9Env : P0Env :=
  { p0BenignEnv "tok" with realClient := { benignClient false with hasLogin := false } }

/-- Concrete command directory for the loader-isolation witness: three files,
one of which fails to load. -/
def c6Files : List CommandFile :=
  [{ fname := "ping.js", loads := true, cmdName := some "ping" },
   { fname := "broken.js", loads := false, cmdName := none },
   { fname := "kick.js", loads := true, cmdName := some "kick" }]

/-- Concrete event directory for the loader-isolation witness: two files, one
of which fails to load. -/
def c6Events : List EventFile :=
  [{ fname := "ready.js", loads := true, evName := some "ready",
     isFunction := true, hasExecute := false },
   { fname := "bad.js", loads := false, evName := none,
     isFunction := false, hasExecute := false }]

/-- Classifier for the events that the bot.js outer-try (update check,
dashboard/database branch, token check, login, outer catch) can emit. -/
def botJsMainEv : Ev → Bool
  | Ev.updateCheckCall => true
  | Ev.exit _ => true
  | Ev.loginCall => true
  | Ev.dashboardBranch => true
  | Ev.dbBranch => true
  | Ev.dashboardLaunchCall => true
  | Ev.dbInitCall => true
  | Ev.consoleError _ => true
  | Ev.clientLog _ => true
  | Ev.clientWarn _ => true
  | Ev.clientError _ => true
  | _ => false

/- -------------------------------------------------------------------- -/
/- Helper lemmas                                                        -/
/- -------------------------------------------------------------------- -/

theorem exitCount_append (l1 l2 : List Ev) :
    exitCount (l1 ++ l2) = exitCount l1 + exitCount l2 := by
  simp [exitCount, List.countP_append]

theorem exitCount_scanCommands (hm : Bool) (fs : List CommandFile) :
    exitCount (scanCommands hm fs) = 0 := by
  induction fs with
  | nil => rfl
  | cons f fs ih =>
    simp only [scanCommands, exitCount_append, ih]
    simp only [scanCommandFile, exitCount, List.countP_cons]
    split_ifs <;> simp_all [isExit] <;> split <;> simp_all [isExit]

theorem exitCount_scanEvents (fs : List EventFile) :
    exitCount (scanEvents fs) = 0 := by
  induction fs with
  | nil => rfl
  | cons f fs ih =>
    simp only [scanEvents, exitCount_append, ih]
    simp only [scanEventFile, exitCount, List.countP_cons]
    split_ifs <;> simp_all [isExit]

theorem exitCount_scanDash (ds : List DashSpot) :
    exitCount (scanDash ds).1 = 0 := by
  induction ds with
  | nil => rfl
  | cons s ds ih =>
    simp only [scanDash]
    split
    · simp only [tryDashSpot]
      split_ifs <;> simp [exitCount, List.countP_cons, isExit]
    · simp only [exitCount_append, ih]
      simp only [tryDashSpot]
      split_ifs <;> simp [exitCount, List.countP_cons, isExit]

theorem loginCall_not_mem_scanCommands (hm : Bool) (fs : List CommandFile) :
    Ev.loginCall ∉ scanCommands hm fs := by
  induction fs with
  | nil => simp [scanCommands]
  | cons f fs ih =>
    simp only [scanCommands, List.mem_append, scanCommandFile, List.mem_cons]
    intro h
    rcases h with h | h
    · rcases h with h | h
      · exact absurd h (by simp)
      · split_ifs at h <;> simp_all <;> split at h <;> simp_all
    · exact ih h

theorem loginCall_not_mem_scanEvents (fs : List EventFile) :
    Ev.loginCall ∉ scanEvents fs := by
  induction fs with
  | nil => simp [scanEvents]
  | cons f fs ih =>
    simp only [scanEvents, List.mem_append, scanEventFile, List.mem_cons]
    intro h
    rcases h with h | h
    · rcases h with h | h
      · exact absurd h (by simp)
      · split_ifs at h <;> simp_all
    · exact ih h

theorem loginCall_not_mem_scanDash (ds : List DashSpot) :
    Ev.loginCall ∉ (scanDash ds).1 := by
  induction ds with
  | nil => simp [scanDash]
  | cons s ds ih =>
    simp only [scanDash]
    split
    · simp only [tryDashSpot]
      split_ifs <;> simp
    · simp only [List.mem_append]
      intro h
      rcases h with h | h
      · revert h
        simp only [tryDashSpot]
        split_ifs <;> simp
      · exact ih h

@[simp] theorem mem_clogLog_iff {x : Ev} {c : Client} {s : String} :
    x ∈ clogLog c s ↔ ((c.logger.present && c.logger.hasLog) = true ∧ x = Ev.clientLog s) := by
  unfold clogLog; split_ifs <;> simp_all

@[simp] theorem mem_clogWarn_iff {x : Ev} {c : Client} {s : String} :
    x ∈ clogWarn c s ↔ ((c.logger.present && c.logger.hasWarn) = true ∧ x = Ev.clientWarn s) := by
  unfold clogWarn; split_ifs <;> simp_all

@[simp] theorem mem_clogError_iff {x : Ev} {c : Client} {s : String} :
    x ∈ clogError c s ↔ ((c.logger.present && c.logger.hasError) = true ∧ x = Ev.clientError s) := by
  unfold clogError; split_ifs <;> simp_all

theorem exit_one_mem_startupErr (c : Client) : Ev.exit 1 ∈ botJsStartupErr c := by
  unfold botJsStartupErr; split_ifs <;> simp

theorem mem_startupErr {x : Ev} {c : Client} (h : x ∈ botJsStartupErr c) :
    x = Ev.exit 1 ∨ x = Ev.consoleError "Startup error" ∨ x = Ev.clientError "Startup error" := by
  unfold botJsStartupErr at h
  split_ifs at h <;> simp_all <;> tauto

theorem mem_loadPart {x : Ev} {c : Client} (h : x ∈ botJsLoadPart c) :
    x = Ev.loadCommandsStep ∨ x = Ev.loadCommandTestsStep ∨ x = Ev.loadEventsStep ∨
      ∃ s, x = Ev.clientError s := by
  unfold botJsLoadPart at h
  split_ifs at h <;>
    simp only [List.mem_append, List.mem_cons, mem_clogError_iff, List.not_mem_nil,
      or_false, false_or] at h <;> aesop

theorem mem_dashboardTry {x : Ev} {e : BotJsEnv} {c : Client}
    (h : x ∈ botJsDashboardTry e c) :
    (∃ s, x = Ev.clientLog s) ∨ x = Ev.dashboardLaunchCall ∨
      (∃ s, x = Ev.clientWarn s) ∨ ∃ s, x = Ev.clientError s := by
  unfold botJsDashboardTry at h
  split_ifs at h <;>
    simp only [List.mem_append, List.mem_cons, List.mem_singleton, mem_clogLog_iff,
      mem_clogWarn_iff, mem_clogError_iff, List.not_mem_nil] at h <;> aesop

theorem mem_dbTry {x : Ev} {e : BotJsEnv} {c : Client} (h : x ∈ botJsDbTry e c) :
    x = Ev.dbInitCall ∨ ∃ s, x = Ev.clientError s := by
  unfold botJsDbTry at h
  split_ifs at h <;>
    simp only [List.mem_cons, mem_clogError_iff, List.not_mem_nil] at h <;> aesop

theorem exit_one_mem_tokenPart_of_none {e : BotJsEnv} (c : Client)
    (h : e.botToken = none) : Ev.exit 1 ∈ botJsTokenPart e c := by
  unfold botJsTokenPart
  rw [h]
  simp

theorem loginCall_not_mem_tokenPart_of_none {e : BotJsEnv} (c : Client)
    (h : e.botToken = none) : Ev.loginCall ∉ botJsTokenPart e c := by
  unfold botJsTokenPart
  rw [h]
  simp

theorem mem_tokenPart {x : Ev} {e : BotJsEnv} {c : Client}
    (h : x ∈ botJsTokenPart e c) :
    x = Ev.exit 1 ∨ x = Ev.loginCall ∨ (∃ s, x = Ev.clientError s) ∨
      (∃ s, x = Ev.clientLog s) ∨ x = Ev.consoleError "Startup error" := by
  unfold botJsTokenPart at h
  cases ht : e.botToken with
  | none =>
    rw [ht] at h
    replace h : x ∈ clogError c "BOT_TOKEN not set in environment. Exiting." ++
        [Ev.exit 1] := h
    simp only [List.mem_append, List.mem_cons, mem_clogError_iff,
      List.not_mem_nil, or_false] at h
    rcases h with ⟨hg, h⟩ | h
    · exact Or.inr (Or.inr (Or.inl ⟨_, h⟩))
    · exact Or.inl h
  | some t =>
    rw [ht] at h
    replace h : x ∈
        (if c.hasLogin = true then
          Ev.loginCall ::
            (if c.loginThrows = true then botJsStartupErr c
             else clogLog c "Bot started successfully.")
        else botJsStartupErr c) := h
    split_ifs at h
    · rw [List.mem_cons] at h
      rcases h with h | h
      · exact Or.inr (Or.inl h)
      · rcases mem_startupErr h with h | h | h
        · exact Or.inl h
        · exact Or.inr (Or.inr (Or.inr (Or.inr h)))
        · exact Or.inr (Or.inr (Or.inl ⟨_, h⟩))
    · rw [List.mem_cons] at h
      rcases h with h | h
      · exact Or.inr (Or.inl h)
      · rw [mem_clogLog_iff] at h
        exact Or.inr (Or.inr (Or.inr (Or.inl ⟨_, h.2⟩)))
    · rcases mem_startupErr h with h | h | h
      · exact Or.inl h
      · exact Or.inr (Or.inr (Or.inr (Or.inr h)))
      · exact Or.inr (Or.inr (Or.inl ⟨_, h⟩))

theorem exit_one_mem_mainTry_of_token_none {e : BotJsEnv} (c : Client)
    (h : e.botToken = none) : Ev.exit 1 ∈ botJsMainTry e c := by
  unfold botJsMainTry
  apply List.mem_cons_of_mem
  by_cases hu : (e.updatesResolves && e.updateThrows) = true
  · simp only [if_pos hu]
    exact exit_one_mem_startupErr c
  · simp only [if_neg hu]
    rw [List.mem_append]
    right
    exact exit_one_mem_tokenPart_of_none c h

theorem loginCall_not_mem_mainTry_of_token_none {e : BotJsEnv} (c : Client)
    (h : e.botToken = none) : Ev.loginCall ∉ botJsMainTry e c := by
  unfold botJsMainTry
  simp only [List.mem_cons]
  rintro (hx | hx)
  · exact Ev.noConfusion hx
  · by_cases hu : (e.updatesResolves && e.updateThrows) = true
    · rw [if_pos hu] at hx
      rcases mem_startupErr hx with h' | h' | h' <;> exact Ev.noConfusion h'
    · rw [if_neg hu] at hx
      rw [List.mem_append] at hx
      rcases hx with hx | hx
      · split_ifs at hx <;> rw [List.mem_cons] at hx <;> rcases hx with hx | hx
        · exact Ev.noConfusion hx
        · rcases mem_dashboardTry hx with ⟨s, h'⟩ | h' | ⟨s, h'⟩ | ⟨s, h'⟩ <;>
            exact Ev.noConfusion h'
        · exact Ev.noConfusion hx
        · rcases mem_dbTry hx with h' | ⟨s, h'⟩ <;> exact Ev.noConfusion h'
      · exact loginCall_not_mem_tokenPart_of_none c h hx

theorem loginCall_not_mem_p0ValidatePart (e : P0Env) :
    Ev.loginCall ∉ p0ValidatePart e := by
  unfold p0ValidatePart; split_ifs <;> simp

theorem loginCall_not_mem_p0UpdatePart (e : P0Env) :
    Ev.loginCall ∉ p0UpdatePart e := by
  unfold p0UpdatePart; split_ifs <;> simp

theorem loginCall_not_mem_p0MongoosePart (e : P0Env) :
    Ev.loginCall ∉ p0MongoosePart e := by
  unfold p0MongoosePart; split_ifs <;> simp

theorem loginCall_not_mem_commandsFallback (c : Client) (e : P0Env) :
    Ev.loginCall ∉ commandsFallback c e := by
  unfold commandsFallback
  split_ifs <;> simp [loginCall_not_mem_scanCommands]

theorem loginCall_not_mem_tryLoadCommands (c : Client) (e : P0Env) :
    Ev.loginCall ∉ tryLoadCommands c e := by
  unfold tryLoadCommands
  split_ifs <;> simp [loginCall_not_mem_commandsFallback c e]

theorem loginCall_not_mem_eventsFallback (e : P0Env) :
    Ev.loginCall ∉ eventsFallback e := by
  unfold eventsFallback
  split_ifs <;> simp [loginCall_not_mem_scanEvents]

theorem loginCall_not_mem_tryLoadEvents (c : Client) (e : P0Env) :
    Ev.loginCall ∉ tryLoadEvents c e := by
  unfold tryLoadEvents
  split_ifs <;> simp [loginCall_not_mem_eventsFallback e]

theorem loginCall_not_mem_registerEventsPart (c : Client) (e : P0Env) :
    Ev.loginCall ∉ registerEventsPart c e := by
  unfold registerEventsPart; split_ifs <;> simp

theorem loginCall_not_mem_tryLaunchDashboard (e : P0Env) :
    Ev.loginCall ∉ tryLaunchDashboard e := by
  unfold tryLaunchDashboard
  simp only [List.mem_cons]
  rintro (hx | hx)
  · exact Ev.noConfusion hx
  · split_ifs at hx <;>
      simp_all [List.mem_append, loginCall_not_mem_scanDash]

theorem loginCall_not_mem_p0LoginPart_of_token_none {e : P0Env} (c : Client)
    (h : p0TokenOf e = none) : Ev.loginCall ∉ p0LoginPart e c := by
  unfold p0LoginPart
  simp [h]

theorem exit_one_mem_p0LoginPart_of_token_none {e : P0Env} (c : Client)
    (h : p0TokenOf e = none) : Ev.exit 1 ∈ p0LoginPart e c := by
  unfold p0LoginPart
  simp [h]

theorem exit_one_mem_p0Rest_of_token_none {e : P0Env} (c : Client)
    (h : p0TokenOf e = none) : Ev.exit 1 ∈ p0Rest e c := by
  have hm := exit_one_mem_p0LoginPart_of_token_none c h
  simp only [p0Rest, List.mem_append, List.mem_cons]
  tauto

theorem loginCall_not_mem_p0Rest_of_token_none {e : P0Env} (c : Client)
    (h : p0TokenOf e = none) : Ev.loginCall ∉ p0Rest e c := by
  simp only [p0Rest, List.mem_append, List.mem_cons]
  simp [loginCall_not_mem_p0ValidatePart e, loginCall_not_mem_p0UpdatePart e,
    loginCall_not_mem_p0MongoosePart e, loginCall_not_mem_tryLoadCommands c e,
    loginCall_not_mem_tryLoadEvents c e, loginCall_not_mem_registerEventsPart c e,
    loginCall_not_mem_tryLaunchDashboard e, loginCall_not_mem_p0LoginPart_of_token_none c h]

theorem p0_exit_one_mem_run_of_token_none (e : P0Env) (h : p0TokenOf e = none) :
    Ev.exit 1 ∈ part000Run e := by
  unfold part000Run
  apply List.mem_cons_of_mem
  apply List.mem_cons_of_mem
  split_ifs with h1 h2
  · exact exit_one_mem_p0Rest_of_token_none _ h
  · exact List.mem_cons_of_mem _
      (List.mem_cons_of_mem _ (exit_one_mem_p0Rest_of_token_none _ h))
  · simp

theorem p0_loginCall_not_mem_run_of_token_none (e : P0Env) (h : p0TokenOf e = none) :
    Ev.loginCall ∉ part000Run e := by
  unfold part000Run
  simp only [List.mem_cons]
  rintro (hx | hx | hx) <;> try exact Ev.noConfusion hx
  split_ifs at hx
  · exact loginCall_not_mem_p0Rest_of_token_none _ h hx
  · rw [List.mem_cons] at hx
    rcases hx with hx | hx
    · exact Ev.noConfusion hx
    · rw [List.mem_cons] at hx
      rcases hx with hx | hx
      · exact Ev.noConfusion hx
      · exact loginCall_not_mem_p0Rest_of_token_none _ h hx
  · simp at hx

/-- C1: in both scripts, when the bot-token environment lookup yields nothing
(for part_000: both `BOT_TOKEN` and `TOKEN` unset), the run emits
`process.exit(1)` and never invokes the client login operation. -/
theorem claim1_missing_token_fatal (e : BotJsEnv) (e2 : P0Env)
    (h : e.botToken = none) (h2 : p0TokenOf e2 = none) :
    (Ev.exit 1 ∈ botJsRun e ∧ Ev.loginCall ∉ botJsRun e) ∧
    (Ev.exit 1 ∈ part000Run e2 ∧ Ev.loginCall ∉ part000Run e2) := by
  refine ⟨⟨?_, ?_⟩, ?_, ?_⟩
  · unfold botJsRun
    apply List.mem_cons_of_mem
    apply List.mem_cons_of_mem
    apply List.mem_cons_of_mem
    by_cases hv : (e.validatorResolves && e.validatorThrows) = true
    · simp [hv]
    · rw [if_neg hv]
      apply List.mem_cons_of_mem
      rw [List.mem_append]
      right
      exact List.mem_cons_of_mem _ (exit_one_mem_mainTry_of_token_none _ h)
  · unfold botJsRun
    simp only [List.mem_cons]
    rintro (hx | hx | hx | hx) <;> try exact Ev.noConfusion hx
    split_ifs at hx
    · simp at hx
    · rw [List.mem_cons] at hx
      rcases hx with hx | hx
      · exact Ev.noConfusion hx
      · rw [List.mem_append, List.mem_cons] at hx
        rcases hx with hx | hx | hx
        · rcases mem_loadPart hx with h' | h' | h' | ⟨s, h'⟩ <;> exact Ev.noConfusion h'
        · exact Ev.noConfusion hx
        · exact loginCall_not_mem_mainTry_of_token_none _ h hx
  · exact p0_exit_one_mem_run_of_token_none e2 h2
  · exact p0_loginCall_not_mem_run_of_token_none e2 h2

/-- C1 witness: the hypotheses are satisfiable at concrete environments. -/
theorem claim1_witness :
    (Ev.exit 1 ∈ botJsRun c1BotEnv ∧ Ev.loginCall ∉ botJsRun c1BotEnv) ∧
    (Ev.exit 1 ∈ part000Run c1P0Env ∧ Ev.loginCall ∉ part000Run c1P0Env) :=
  claim1_missing_token_fatal c1BotEnv c1P0Env rfl rfl

theorem mem_botJsRun {x : Ev} {e : BotJsEnv} (h : x ∈ botJsRun e) :
    x = Ev.envLoad ∨ x = Ev.banner ∨ x = Ev.validateCall ∨
      (∃ s, x = Ev.consoleError s) ∨ x = Ev.exit 1 ∨ x = Ev.clientConstruct ∨
      x = Ev.installUnhandledRejection ∨ x ∈ botJsLoadPart (botJsClient e) ∨
      x ∈ botJsMainTry e (botJsClient e) := by
  unfold botJsRun at h
  simp only [List.mem_cons] at h
  rcases h with h | h | h | h
  · tauto
  · tauto
  · tauto
  · split_ifs at h
    · simp only [List.mem_cons, List.not_mem_nil, or_false] at h
      rcases h with h | h
      · exact Or.inr (Or.inr (Or.inr (Or.inl ⟨_, h⟩)))
      · tauto
    · rw [List.mem_cons] at h
      rcases h with h | h
      · tauto
      · rw [List.mem_append, List.mem_cons] at h
        tauto

theorem botJs_loginCall_not_mem_run (e : BotJsEnv)
    (hm : Ev.loginCall ∉ botJsMainTry e (botJsClient e)) :
    Ev.loginCall ∉ botJsRun e := by
  intro hx
  rcases mem_botJsRun hx with h | h | h | ⟨s, h⟩ | h | h | h | h | h
  any_goals exact Ev.noConfusion h
  · rcases mem_loadPart h with h' | h' | h' | ⟨s, h'⟩ <;> exact Ev.noConfusion h'
  · exact hm h

theorem botJs_exit_one_mem_run (e : BotJsEnv)
    (hm : Ev.exit 1 ∈ botJsMainTry e (botJsClient e)) :
    Ev.exit 1 ∈ botJsRun e := by
  unfold botJsRun
  apply List.mem_cons_of_mem
  apply List.mem_cons_of_mem
  apply List.mem_cons_of_mem
  by_cases hv : (e.validatorResolves && e.validatorThrows) = true
  · simp [hv]
  · rw [if_neg hv]
    apply List.mem_cons_of_mem
    rw [List.mem_append]
    right
    exact List.mem_cons_of_mem _ hm

theorem exit_one_mem_mainTry_of_updateFail {e : BotJsEnv} (c : Client)
    (hb : (e.updatesResolves && e.updateThrows) = true) :
    Ev.exit 1 ∈ botJsMainTry e c := by
  unfold botJsMainTry
  apply List.mem_cons_of_mem
  rw [if_pos hb]
  exact exit_one_mem_startupErr c

theorem loginCall_not_mem_mainTry_of_updateFail {e : BotJsEnv} (c : Client)
    (hb : (e.updatesResolves && e.updateThrows) = true) :
    Ev.loginCall ∉ botJsMainTry e c := by
  unfold botJsMainTry
  simp only [List.mem_cons]
  rintro (hx | hx)
  · exact Ev.noConfusion hx
  · rw [if_pos hb] at hx
    rcases mem_startupErr hx with h' | h' | h' <;> exact Ev.noConfusion h'

theorem p0_mem_run_of_mem_rest {x : Ev} {e : P0Env} (h3 : e.botClientResolves = true)
    (hm : x ∈ p0Rest e e.realClient) : x ∈ part000Run e := by
  unfold part000Run
  simp only [h3, if_true, List.mem_cons]
  tauto

theorem p0_mem_rest_of_mem_validate {x : Ev} {e : P0Env} (c : Client)
    (hm : x ∈ p0ValidatePart e) : x ∈ p0Rest e c := by
  simp only [p0Rest, List.mem_append, List.mem_cons]
  tauto

theorem p0_mem_rest_of_mem_update {x : Ev} {e : P0Env} (c : Client)
    (hm : x ∈ p0UpdatePart e) : x ∈ p0Rest e c := by
  simp only [p0Rest, List.mem_append, List.mem_cons]
  tauto

theorem p0_mem_rest_of_mem_mongoose {x : Ev} {e : P0Env} (c : Client)
    (hm : x ∈ p0MongoosePart e) : x ∈ p0Rest e c := by
  simp only [p0Rest, List.mem_append, List.mem_cons]
  tauto

theorem p0_mem_rest_of_mem_dashboard {x : Ev} {e : P0Env} (c : Client)
    (hm : x ∈ tryLaunchDashboard e) : x ∈ p0Rest e c := by
  simp only [p0Rest, List.mem_append, List.mem_cons]
  tauto

theorem p0_mem_rest_of_mem_login {x : Ev} {e : P0Env} (c : Client)
    (hm : x ∈ p0LoginPart e c) : x ∈ p0Rest e c := by
  simp only [p0Rest, List.mem_append, List.mem_cons]
  tauto

theorem updateWarn_mem_p0UpdatePart {e : P0Env} (h1 : e.updatesIsFn = true)
    (h2 : e.updateThrows = true) :
    Ev.consoleWarn "Error while checking for updates (continuing):" ∈ p0UpdatePart e := by
  unfold p0UpdatePart
  simp [h1, h2]

theorem loginCall_mem_p0LoginPart {e : P0Env} (c : Client)
    (h4 : c.hasLogin = true) (h6 : (p0TokenOf e).isSome = true) :
    Ev.loginCall ∈ p0LoginPart e c := by
  unfold p0LoginPart
  cases ht : p0TokenOf e with
  | none => rw [ht] at h6; simp at h6
  | some t => simp [h4]

theorem exitCount_cons (x : Ev) (l : List Ev) :
    exitCount (x :: l) = exitCount l + (if isExit x = true then 1 else 0) := by
  simp [exitCount, List.countP_cons]

theorem exitCount_clogLog (c : Client) (s : String) : exitCount (clogLog c s) = 0 := by
  unfold clogLog; split_ifs <;> rfl

theorem exitCount_clogWarn (c : Client) (s : String) : exitCount (clogWarn c s) = 0 := by
  unfold clogWarn; split_ifs <;> rfl

theorem exitCount_clogError (c : Client) (s : String) : exitCount (clogError c s) = 0 := by
  unfold clogError; split_ifs <;> rfl

theorem exitCount_p0ValidatePart (e : P0Env) : exitCount (p0ValidatePart e) = 0 := by
  unfold p0ValidatePart; split_ifs <;> rfl

theorem exitCount_p0UpdatePart (e : P0Env) : exitCount (p0UpdatePart e) = 0 := by
  unfold p0UpdatePart; split_ifs <;> rfl

theorem exitCount_p0MongoosePart (e : P0Env) : exitCount (p0MongoosePart e) = 0 := by
  unfold p0MongoosePart; split_ifs <;> rfl

theorem exitCount_nil : exitCount [] = 0 := rfl

theorem exitCount_commandsFallback (c : Client) (e : P0Env) :
    exitCount (commandsFallback c e) = 0 := by
  unfold commandsFallback
  split_ifs
  · rw [exitCount_append, exitCount_scanCommands]; rfl
  · rfl

theorem exitCount_tryLoadCommands (c : Client) (e : P0Env) :
    exitCount (tryLoadCommands c e) = 0 := by
  unfold tryLoadCommands
  split_ifs <;>
    simp [exitCount_cons, isExit, exitCount_commandsFallback c e, exitCount_nil]

theorem exitCount_eventsFallback (e : P0Env) : exitCount (eventsFallback e) = 0 := by
  unfold eventsFallback
  split_ifs
  · rw [exitCount_append, exitCount_scanEvents]; rfl
  · rfl

theorem exitCount_tryLoadEvents (c : Client) (e : P0Env) :
    exitCount (tryLoadEvents c e) = 0 := by
  unfold tryLoadEvents
  split_ifs <;>
    simp [exitCount_cons, isExit, exitCount_eventsFallback e, exitCount_nil]

theorem exitCount_registerEventsPart (c : Client) (e : P0Env) :
    exitCount (registerEventsPart c e) = 0 := by
  unfold registerEventsPart; split_ifs <;> rfl

theorem exitCount_tryLaunchDashboard (e : P0Env) :
    exitCount (tryLaunchDashboard e) = 0 := by
  simp only [tryLaunchDashboard]
  split_ifs <;>
    simp [exitCount_cons, isExit, exitCount_append, exitCount_scanDash, exitCount_nil]

theorem exitCount_p0LoginPart_of_login_ok {e : P0Env} (c : Client)
    (h4 : c.hasLogin = true) (h5 : c.loginThrows = false)
    (h6 : (p0TokenOf e).isSome = true) : exitCount (p0LoginPart e c) = 0 := by
  unfold p0LoginPart
  cases ht : p0TokenOf e with
  | none => rw [ht] at h6; simp at h6
  | some t => simp [h4, h5, exitCount_cons, isExit, exitCount_nil]

theorem exitCount_p0LoginPart_of_no_login {e : P0Env} (c : Client)
    (h4 : c.hasLogin = false) (h6 : (p0TokenOf e).isSome = true) :
    exitCount (p0LoginPart e c) = 0 := by
  unfold p0LoginPart
  cases ht : p0TokenOf e with
  | none => rw [ht] at h6; simp at h6
  | some t => simp [h4, exitCount_cons, isExit, exitCount_nil]

theorem exitCount_p0Rest (e : P0Env) (c : Client) :
    exitCount (p0Rest e c) = exitCount (p0LoginPart e c) := by
  unfold p0Rest
  simp [exitCount_append, exitCount_cons, isExit, exitCount_p0ValidatePart,
    exitCount_p0UpdatePart, exitCount_p0MongoosePart, exitCount_tryLoadCommands,
    exitCount_tryLoadEvents, exitCount_registerEventsPart, exitCount_tryLaunchDashboard]

theorem exitCount_part000Run (e : P0Env) (h3 : e.botClientResolves = true) :
    exitCount (part000Run e) = exitCount (p0LoginPart e e.realClient) := by
  unfold part000Run
  simp [h3, exitCount_cons, isExit, exitCount_p0Rest]

/-- C2 counterexample: in `src/bot.js`, a throwing update check reaches the
outer catch and the process exits with status 1 before any login; execution
does not proceed to login, so an update-check failure is not non-fatal there. -/
theorem claim2_counterexample :
    Ev.exit 1 ∈ botJsRun c2Env ∧ Ev.loginCall ∉ botJsRun c2Env := by
  decide

/-- C2 (amended): an update-check failure is non-fatal only in
`src/unnamed/part_000`, where it is caught, logged as a warning, and execution
proceeds to login with no exit; in `src/bot.js` the failure propagates to the
outer catch and the process terminates with status 1 before login. -/
theorem claim2_update_failure_policy (e : BotJsEnv) (e2 : P0Env)
    (hb : (e.updatesResolves && e.updateThrows) = true)
    (h1 : e2.updatesIsFn = true) (h2 : e2.updateThrows = true)
    (h3 : e2.botClientResolves = true) (h4 : e2.realClient.hasLogin = true)
    (h5 : e2.realClient.loginThrows = false) (h6 : (p0TokenOf e2).isSome = true) :
    (Ev.exit 1 ∈ botJsRun e ∧ Ev.loginCall ∉ botJsRun e) ∧
    (Ev.consoleWarn "Error while checking for updates (continuing):" ∈ part000Run e2 ∧
      Ev.loginCall ∈ part000Run e2 ∧ exitCount (part000Run e2) = 0) := by
  refine ⟨⟨?_, ?_⟩, ?_, ?_, ?_⟩
  · exact botJs_exit_one_mem_run e (exit_one_mem_mainTry_of_updateFail _ hb)
  · exact botJs_loginCall_not_mem_run e (loginCall_not_mem_mainTry_of_updateFail _ hb)
  · exact p0_mem_run_of_mem_rest h3
      (p0_mem_rest_of_mem_update _ (updateWarn_mem_p0UpdatePart h1 h2))
  · exact p0_mem_run_of_mem_rest h3
      (p0_mem_rest_of_mem_login _ (loginCall_mem_p0LoginPart _ h4 h6))
  · rw [exitCount_part000Run e2 h3]
    exact exitCount_p0LoginPart_of_login_ok _ h4 h5 h6

/-- C2 witness: the hypotheses are satisfiable at concrete environments. -/
theorem claim2_witness :
    (Ev.exit 1 ∈ botJsRun c2Env ∧ Ev.loginCall ∉ botJsRun c2Env) ∧
    (Ev.consoleWarn "Error while checking for updates (continuing):" ∈ part000Run c2P0Env ∧
      Ev.loginCall ∈ part000Run c2P0Env ∧ exitCount (part000Run c2P0Env) = 0) :=
  claim2_update_failure_policy c2Env c2P0Env rfl rfl rfl rfl rfl rfl rfl

theorem validateErr_mem_p0ValidatePart {e : P0Env} (h1 : e.validatorIsFn = true)
    (h2 : e.validatorThrows = true) :
    Ev.consoleError "Configuration validation failed:" ∈ p0ValidatePart e := by
  unfold p0ValidatePart
  simp [h1, h2]

/-- C3 counterexample: in `src/bot.js` a throwing configuration validator is
caught and logged, but the process then exits with status 1 — execution does
not continue to the next startup step (client construction never happens). -/
theorem claim3_counterexample :
    Ev.exit 1 ∈ botJsRun c3Env ∧ Ev.clientConstruct ∉ botJsRun c3Env := by
  decide

/-- C3 (amended): a configuration-validation failure is caught and logged in
both scripts, but execution continues only in `src/unnamed/part_000` (which
proceeds through the remaining startup steps to login with no exit); in
`src/bot.js` the process exits with status 1 before client construction. -/
theorem claim3_validation_failure_policy (e : BotJsEnv) (e2 : P0Env)
    (hv : (e.validatorResolves && e.validatorThrows) = true)
    (h1 : e2.validatorIsFn = true) (h2 : e2.validatorThrows = true)
    (h3 : e2.botClientResolves = true) (h4 : e2.realClient.hasLogin = true)
    (h5 : e2.realClient.loginThrows = false) (h6 : (p0TokenOf e2).isSome = true) :
    (Ev.consoleError "Configuration validation failed:" ∈ botJsRun e ∧
      Ev.exit 1 ∈ botJsRun e ∧ Ev.clientConstruct ∉ botJsRun e) ∧
    (Ev.consoleError "Configuration validation failed:" ∈ part000Run e2 ∧
      Ev.dbStep ∈ part000Run e2 ∧ Ev.loginCall ∈ part000Run e2 ∧
      exitCount (part000Run e2) = 0) := by
  refine ⟨⟨?_, ?_, ?_⟩, ?_, ?_, ?_, ?_⟩
  · unfold botJsRun; simp [hv]
  · unfold botJsRun; simp [hv]
  · unfold botJsRun; simp [hv]
  · exact p0_mem_run_of_mem_rest h3
      (p0_mem_rest_of_mem_validate _ (validateErr_mem_p0ValidatePart h1 h2))
  · exact p0_mem_run_of_mem_rest h3
      (p0_mem_rest_of_mem_mongoose _ (List.mem_cons_self _ _))
  · exact p0_mem_run_of_mem_rest h3
      (p0_mem_rest_of_mem_login _ (loginCall_mem_p0LoginPart _ h4 h6))
  · rw [exitCount_part000Run e2 h3]
    exact exitCount_p0LoginPart_of_login_ok _ h4 h5 h6

/-- C3 witness: the hypotheses are satisfiable at concrete environments. -/
theorem claim3_witness :
    (Ev.consoleError "Configuration validation failed:" ∈ botJsRun c3Env ∧
      Ev.exit 1 ∈ botJsRun c3Env ∧ Ev.clientConstruct ∉ botJsRun c3Env) ∧
    (Ev.consoleError "Configuration validation failed:" ∈ part000Run c3P0Env ∧
      Ev.dbStep ∈ part000Run c3P0Env ∧ Ev.loginCall ∈ part000Run c3P0Env ∧
      exitCount (part000Run c3P0Env) = 0) :=
  claim3_validation_failure_policy c3Env c3P0Env rfl rfl rfl rfl rfl rfl rfl

theorem exitCount_loadPart (c : Client) : exitCount (botJsLoadPart c) = 0 := by
  unfold botJsLoadPart
  split_ifs <;>
    simp [exitCount_append, exitCount_cons, exitCount_nil, exitCount_clogError, isExit]

theorem exitCount_dashboardTry (e : BotJsEnv) (c : Client) :
    exitCount (botJsDashboardTry e c) = 0 := by
  unfold botJsDashboardTry
  split_ifs <;>
    simp [exitCount_append, exitCount_cons, exitCount_nil, exitCount_clogError,
      exitCount_clogLog, exitCount_clogWarn, isExit]

theorem exitCount_dbTry (e : BotJsEnv) (c : Client) :
    exitCount (botJsDbTry e c) = 0 := by
  unfold botJsDbTry
  split_ifs <;>
    simp [exitCount_cons, exitCount_nil, exitCount_clogError, isExit]

theorem exitCount_tokenPart_of_ok {e : BotJsEnv} (c : Client)
    (h4 : c.hasLogin = true) (h5 : c.loginThrows = false)
    (h6 : e.botToken.isSome = true) :
    exitCount (botJsTokenPart e c) = 0 := by
  unfold botJsTokenPart
  cases ht : e.botToken with
  | none => rw [ht] at h6; simp at h6
  | some t =>
    simp [h4, h5, exitCount_cons, isExit, exitCount_nil, exitCount_clogLog]

theorem exitCount_mainTry_of_ok {e : BotJsEnv} (c : Client)
    (hu : (e.updatesResolves && e.updateThrows) = false)
    (h4 : c.hasLogin = true) (h5 : c.loginThrows = false)
    (h6 : e.botToken.isSome = true) :
    exitCount (botJsMainTry e c) = 0 := by
  unfold botJsMainTry
  rw [exitCount_cons]
  simp only [hu, Bool.false_eq_true, if_false, isExit]
  rw [exitCount_append, exitCount_tokenPart_of_ok c h4 h5 h6]
  split_ifs <;>
    simp [exitCount_dashboardTry, exitCount_dbTry, exitCount_cons, isExit,
      exitCount_nil]

theorem exitCount_botJsRun_of_valOk (e : BotJsEnv)
    (hv : (e.validatorResolves && e.validatorThrows) = false) :
    exitCount (botJsRun e) = exitCount (botJsMainTry e (botJsClient e)) := by
  unfold botJsRun
  simp [hv, exitCount_cons, exitCount_append, exitCount_loadPart, isExit]

theorem botJs_mem_run_of_mem_mainTry {x : Ev} {e : BotJsEnv}
    (hv : (e.validatorResolves && e.validatorThrows) = false)
    (hm : x ∈ botJsMainTry e (botJsClient e)) : x ∈ botJsRun e := by
  unfold botJsRun
  simp only [hv, Bool.false_eq_true, if_false, List.mem_cons, List.mem_append]
  tauto

theorem loginCall_mem_tokenPart_of_ok {e : BotJsEnv} (c : Client)
    (h4 : c.hasLogin = true) (h6 : e.botToken.isSome = true) :
    Ev.loginCall ∈ botJsTokenPart e c := by
  unfold botJsTokenPart
  cases ht : e.botToken with
  | none => rw [ht] at h6; simp at h6
  | some t => simp [h4]

theorem loginCall_mem_mainTry_of_ok {e : BotJsEnv} (c : Client)
    (hu : (e.updatesResolves && e.updateThrows) = false)
    (h4 : c.hasLogin = true) (h6 : e.botToken.isSome = true) :
    Ev.loginCall ∈ botJsMainTry e c := by
  unfold botJsMainTry
  apply List.mem_cons_of_mem
  rw [if_neg (by simp [hu])]
  rw [List.mem_append]
  right
  exact loginCall_mem_tokenPart_of_ok c h4 h6

/-- C4 counterexample: in `src/bot.js`, when the BotClient module cannot be
resolved the script substitutes its built-in `MinimalBotClient` and runs every
later startup step up to and including login, and never exits. -/
theorem claim4_counterexample :
    Ev.loginCall ∈ botJsRun c4Env ∧ exitCount (botJsRun c4Env) = 0 := by
  decide

/-- C4 (amended): when the BotClient module cannot be resolved, `src/bot.js`
continues with its `MinimalBotClient` fallback (reaching client construction
and login with no exit); `src/unnamed/part_000` first tries a discord.js-based
fallback client and continues when discord.js is available, terminating with
status 1 before any later startup step only when discord.js is unavailable
too. -/
theorem claim4_client_fallback (e : BotJsEnv) (e2 e3 : P0Env)
    (hbc : e.botClientResolves = false)
    (hv : (e.validatorResolves && e.validatorThrows) = false)
    (hu : (e.updatesResolves && e.updateThrows) = false)
    (h6 : e.botToken.isSome = true)
    (hb2 : e2.botClientResolves = false) (hd2 : e2.discordResolves = false)
    (hb3 : e3.botClientResolves = false) (hd3 : e3.discordResolves = true) :
    (Ev.clientConstruct ∈ botJsRun e ∧ Ev.loginCall ∈ botJsRun e ∧
      exitCount (botJsRun e) = 0) ∧
    (Ev.exit 1 ∈ part000Run e2 ∧ Ev.validateCall ∉ part000Run e2 ∧
      Ev.clientConstruct ∉ part000Run e2 ∧ Ev.loginCall ∉ part000Run e2) ∧
    (Ev.clientConstruct ∈ part000Run e3) := by
  have hcl : botJsClient e = minimalBotClient := by
    unfold botJsClient; simp [hbc]
  refine ⟨⟨?_, ?_, ?_⟩, ⟨?_, ?_, ?_, ?_⟩, ?_⟩
  · unfold botJsRun
    simp [hv, List.mem_cons]
  · exact botJs_mem_run_of_mem_mainTry hv
      (by rw [hcl]; exact loginCall_mem_mainTry_of_ok _ hu rfl h6)
  · rw [exitCount_botJsRun_of_valOk e hv, hcl]
    exact exitCount_mainTry_of_ok _ hu rfl rfl h6
  · unfold part000Run; simp [hb2, hd2]
  · unfold part000Run; simp [hb2, hd2]
  · unfold part000Run; simp [hb2, hd2]
  · unfold part000Run; simp [hb2, hd2]
  · unfold part000Run
    simp only [hb3, hd3, Bool.false_eq_true, if_false, if_true, List.mem_cons]
    refine Or.inr (Or.inr (Or.inr (Or.inr ?_)))
    simp only [p0Rest, List.mem_append, List.mem_cons]
    tauto

/-- C4 witness: the hypotheses are satisfiable at concrete environments. -/
theorem claim4_witness :
    (Ev.clientConstruct ∈ botJsRun c4Env ∧ Ev.loginCall ∈ botJsRun c4Env ∧
      exitCount (botJsRun c4Env) = 0) ∧
    (Ev.exit 1 ∈ part000Run c4P0Env ∧ Ev.validateCall ∉ part000Run c4P0Env ∧
      Ev.clientConstruct ∉ part000Run c4P0Env ∧ Ev.loginCall ∉ part000Run c4P0Env) ∧
    (Ev.clientConstruct ∈ part000Run { c4P0Env with discordResolves := true }) :=
  claim4_client_fallback c4Env c4P0Env { c4P0Env with discordResolves := true }
    rfl rfl rfl rfl rfl rfl rfl rfl

/-- C5 counterexample: in `src/bot.js` (benign environment, dashboard off),
command loading happens strictly before the update check, contradicting the
specified order (validation, then update check, then dashboard-or-database,
then command/event loading, then login). -/
theorem claim5_counterexample :
    Ev.updateCheckCall ∈ botJsRun c5Env ∧ Ev.loadCommandsStep ∈ botJsRun c5Env ∧
    inOrder [Ev.loadCommandsStep, Ev.updateCheckCall] (botJsRun c5Env) = true ∧
    inOrder [Ev.updateCheckCall, Ev.loadCommandsStep] (botJsRun c5Env) = false := by
  decide

/-- C5 (amended): on a fully benign run the scripts execute their steps
strictly in order, but the order differs from the specified one:
`src/bot.js` runs environment load, banner, configuration validation, client
construction, command/test/event loading, handler installation, update check,
dashboard-XOR-database branch, login; `src/unnamed/part_000` runs environment
load, banner, configuration validation, update check, unconditional database
init, client construction, handler installation, command/event loading,
dashboard attempt, login. -/
theorem claim5_step_order (t : String) (b : Bool) :
    inOrder [Ev.envLoad, Ev.banner, Ev.validateCall, Ev.clientConstruct,
        Ev.loadCommandsStep, Ev.loadCommandTestsStep, Ev.loadEventsStep,
        Ev.installUnhandledRejection, Ev.updateCheckCall,
        (if b then Ev.dashboardBranch else Ev.dbBranch), Ev.loginCall]
      (botJsRun (botJsBenignEnv t b)) = true ∧
    inOrder [Ev.envLoad, Ev.banner, Ev.validateCall, Ev.updateCheckCall,
        Ev.dbStep, Ev.dbInitCall, Ev.clientConstruct,
        Ev.installUnhandledRejection, Ev.installUncaughtException,
        Ev.loadCommandsStep, Ev.loadEventsStep, Ev.dashboardStep, Ev.loginCall]
      (part000Run (p0BenignEnv t)) = true := by
  cases b <;> exact ⟨rfl, rfl⟩

theorem attemptCount_append (l1 l2 : List Ev) :
    attemptCount (l1 ++ l2) = attemptCount l1 + attemptCount l2 := by
  simp [attemptCount, List.countP_append]

theorem warnCount_append (l1 l2 : List Ev) :
    warnCount (l1 ++ l2) = warnCount l1 + warnCount l2 := by
  simp [warnCount, List.countP_append]

theorem registeredEventCount_append (l1 l2 : List Ev) :
    registeredEventCount (l1 ++ l2) =
      registeredEventCount l1 + registeredEventCount l2 := by
  simp [registeredEventCount, List.countP_append]

theorem registeredCommands_append (l1 l2 : List Ev) :
    registeredCommands (l1 ++ l2) = registeredCommands l1 ++ registeredCommands l2 := by
  simp [registeredCommands, List.filterMap_append]

theorem scanCommands_attempts (hm : Bool) (fs : List CommandFile) :
    attemptCount (scanCommands hm fs) = fs.length := by
  induction fs with
  | nil => rfl
  | cons f fs ih =>
    rw [scanCommands, attemptCount_append, ih]
    have h1 : attemptCount (scanCommandFile hm f) = 1 := by
      unfold scanCommandFile
      cases hl : f.loads <;> cases hn : f.cmdName <;>
        split_ifs <;> simp [attemptCount, List.countP_cons]
    rw [h1]
    simp [List.length_cons]
    omega

theorem scanCommands_warns (hm : Bool) (fs : List CommandFile) :
    warnCount (scanCommands hm fs) = (fs.filter (fun f => !f.loads)).length := by
  induction fs with
  | nil => rfl
  | cons f fs ih =>
    rw [scanCommands, warnCount_append, ih]
    cases hl : f.loads
    · have h1 : warnCount (scanCommandFile hm f) = 1 := by
        unfold scanCommandFile
        simp [hl, warnCount, List.countP_cons]
      rw [h1]
      simp [List.filter_cons, hl]
      omega
    · have h1 : warnCount (scanCommandFile hm f) = 0 := by
        unfold scanCommandFile
        cases hn : f.cmdName <;>
          split_ifs <;> simp [hl, hn, warnCount, List.countP_cons]
      rw [h1]
      simp [List.filter_cons, hl]

theorem scanCommands_registered (fs : List CommandFile)
    (h : ∀ f ∈ fs, f.loads = true → f.cmdName.isSome = true) :
    registeredCommands (scanCommands true fs) =
      (fs.filter (fun f => f.loads)).map (fun f => f.cmdName.getD "") := by
  induction fs with
  | nil => rfl
  | cons f fs ih =>
    have hf := h f (List.mem_cons_self f fs)
    have ih2 := ih (fun g hg hl => h g (List.mem_cons_of_mem f hg) hl)
    rw [scanCommands, registeredCommands_append, ih2]
    cases hl : f.loads
    · have h1 : registeredCommands (scanCommandFile true f) = [] := by
        unfold scanCommandFile
        simp [hl, registeredCommands]
      rw [h1]
      simp [List.filter_cons, hl]
    · cases hn : f.cmdName with
      | none => rw [hl] at hf; rw [hn] at hf; simp at hf
      | some n =>
        have h1 : registeredCommands (scanCommandFile true f) = [n] := by
          unfold scanCommandFile
          simp [hl, hn, registeredCommands]
        rw [h1]
        simp [List.filter_cons, hl, hn]

theorem scanEvents_attempts (fs : List EventFile) :
    attemptCount (scanEvents fs) = fs.length := by
  induction fs with
  | nil => rfl
  | cons f fs ih =>
    rw [scanEvents, attemptCount_append, ih]
    have h1 : attemptCount (scanEventFile f) = 1 := by
      unfold scanEventFile
      split_ifs <;> simp [attemptCount, List.countP_cons]
    rw [h1]
    simp [List.length_cons]
    omega

theorem scanEvents_warns (fs : List EventFile) :
    warnCount (scanEvents fs) = (fs.filter (fun g => !g.loads)).length := by
  induction fs with
  | nil => rfl
  | cons f fs ih =>
    rw [scanEvents, warnCount_append, ih]
    cases hl : f.loads
    · have h1 : warnCount (scanEventFile f) = 1 := by
        unfold scanEventFile
        simp [hl, warnCount, List.countP_cons]
      rw [h1]
      simp [List.filter_cons, hl]
      omega
    · have h1 : warnCount (scanEventFile f) = 0 := by
        unfold scanEventFile
        split_ifs <;> simp_all [warnCount, List.countP_cons]
      rw [h1]
      simp [List.filter_cons, hl]

theorem scanEvents_registered (fs : List EventFile)
    (h : ∀ g ∈ fs, g.loads = true → (g.isFunction || g.hasExecute) = true) :
    registeredEventCount (scanEvents fs) = (fs.filter (fun g => g.loads)).length := by
  induction fs with
  | nil => rfl
  | cons f fs ih =>
    have hf := h f (List.mem_cons_self f fs)
    have ih2 := ih (fun g hg hl => h g (List.mem_cons_of_mem f hg) hl)
    rw [scanEvents, registeredEventCount_append, ih2]
    cases hl : f.loads
    · have h1 : registeredEventCount (scanEventFile f) = 0 := by
        unfold scanEventFile
        simp [hl, registeredEventCount, List.countP_cons]
      rw [h1]
      simp [List.filter_cons, hl]
    · have h1 : registeredEventCount (scanEventFile f) = 1 := by
        have := hf hl
        unfold scanEventFile
        cases hif : f.isFunction <;> cases hex : f.hasExecute <;>
          simp_all [registeredEventCount, List.countP_cons]
      rw [h1]
      simp [List.filter_cons, hl]
      omega

theorem filter_not_length {α : Type} (p : α → Bool) (l : List α) :
    (l.filter p).length + (l.filter (fun a => !(p a))).length = l.length := by
  induction l with
  | nil => rfl
  | cons a l ih => cases hp : p a <;> simp [List.filter_cons, hp] <;> omega

/-- C6: the directory-scan fallbacks of part_000 are per-file isolated: over a
(`.js`-filtered) directory listing of N files of which M fail to load, every
file is attempted (no abort), exactly the N−M successfully loaded handlers
are registered (for commands: by their exported names, given a command
registry and named exports; for events: counted, given function or execute
exports), and exactly M warnings are logged. -/
theorem claim6_scan_isolation (fs : List CommandFile) (gs : List EventFile)
    (hc : ∀ f ∈ fs, f.loads = true → f.cmdName.isSome = true)
    (he : ∀ g ∈ gs, g.loads = true → (g.isFunction || g.hasExecute) = true) :
    attemptCount (scanCommands true fs) = fs.length ∧
    registeredCommands (scanCommands true fs) =
      (fs.filter (fun f => f.loads)).map (fun f => f.cmdName.getD "") ∧
    (registeredCommands (scanCommands true fs)).length =
      fs.length - (fs.filter (fun f => !f.loads)).length ∧
    warnCount (scanCommands true fs) = (fs.filter (fun f => !f.loads)).length ∧
    attemptCount (scanEvents gs) = gs.length ∧
    registeredEventCount (scanEvents gs) =
      gs.length - (gs.filter (fun g => !g.loads)).length ∧
    warnCount (scanEvents gs) = (gs.filter (fun g => !g.loads)).length := by
  have hcomp := filter_not_length (fun f : CommandFile => f.loads) fs
  have hcompE := filter_not_length (fun g : EventFile => g.loads) gs
  refine ⟨scanCommands_attempts true fs, scanCommands_registered fs hc, ?_,
    scanCommands_warns true fs, scanEvents_attempts gs, ?_, scanEvents_warns gs⟩
  · rw [scanCommands_registered fs hc, List.length_map]
    omega
  · rw [scanEvents_registered gs he]
    omega

/-- C6 witness: the hypotheses are satisfiable at a concrete directory with
one failing command file and one failing event file. -/
theorem claim6_witness :
    attemptCount (scanCommands true c6Files) = c6Files.length ∧
    registeredCommands (scanCommands true c6Files) =
      (c6Files.filter (fun f => f.loads)).map (fun f => f.cmdName.getD "") ∧
    (registeredCommands (scanCommands true c6Files)).length =
      c6Files.length - (c6Files.filter (fun f => !f.loads)).length ∧
    warnCount (scanCommands true c6Files) = (c6Files.filter (fun f => !f.loads)).length ∧
    attemptCount (scanEvents c6Events) = c6Events.length ∧
    registeredEventCount (scanEvents c6Events) =
      c6Events.length - (c6Events.filter (fun g => !g.loads)).length ∧
    warnCount (scanEvents c6Events) = (c6Events.filter (fun g => !g.loads)).length :=
  claim6_scan_isolation c6Files c6Events (by decide) (by decide)

theorem dashboardBranch_mem_mainTry_of {e : BotJsEnv} (c : Client)
    (hu : (e.updatesResolves && e.updateThrows) = false)
    (hd : c.dashboardEnabled = true) :
    Ev.dashboardBranch ∈ botJsMainTry e c := by
  unfold botJsMainTry
  apply List.mem_cons_of_mem
  rw [if_neg (by simp [hu])]
  rw [List.mem_append]
  left
  rw [if_pos hd]
  exact List.mem_cons_self _ _

theorem dbBranch_mem_mainTry_of {e : BotJsEnv} (c : Client)
    (hu : (e.updatesResolves && e.updateThrows) = false)
    (hd : c.dashboardEnabled = false) :
    Ev.dbBranch ∈ botJsMainTry e c := by
  unfold botJsMainTry
  apply List.mem_cons_of_mem
  rw [if_neg (by simp [hu])]
  rw [List.mem_append]
  left
  rw [if_neg (by simp [hd])]
  exact List.mem_cons_self _ _

theorem dashboardBranch_mem_mainTry_imp {e : BotJsEnv} {c : Client}
    (h : Ev.dashboardBranch ∈ botJsMainTry e c) : c.dashboardEnabled = true := by
  unfold botJsMainTry at h
  rw [List.mem_cons] at h
  rcases h with h | h
  · exact Ev.noConfusion h
  · by_cases hu : (e.updatesResolves && e.updateThrows) = true
    · rw [if_pos hu] at h
      rcases mem_startupErr h with h | h | h <;> exact Ev.noConfusion h
    · rw [if_neg hu] at h
      rw [List.mem_append] at h
      rcases h with h | h
      · by_cases hd : c.dashboardEnabled = true
        · exact hd
        · rw [if_neg hd] at h
          rw [List.mem_cons] at h
          rcases h with h | h
          · exact Ev.noConfusion h
          · rcases mem_dbTry h with h | ⟨s, h⟩ <;> exact Ev.noConfusion h
      · rcases mem_tokenPart h with h | h | ⟨s, h⟩ | ⟨s, h⟩ | h <;>
          exact Ev.noConfusion h

theorem dbBranch_mem_mainTry_imp {e : BotJsEnv} {c : Client}
    (h : Ev.dbBranch ∈ botJsMainTry e c) : c.dashboardEnabled = false := by
  unfold botJsMainTry at h
  rw [List.mem_cons] at h
  rcases h with h | h
  · exact Ev.noConfusion h
  · by_cases hu : (e.updatesResolves && e.updateThrows) = true
    · rcases mem_startupErr (by rwa [if_pos hu] at h) with h' | h' | h' <;>
        exact Ev.noConfusion h'
    · rw [if_neg hu] at h
      rw [List.mem_append] at h
      rcases h with h | h
      · by_cases hd : c.dashboardEnabled = true
        · rw [if_pos hd] at h
          rw [List.mem_cons] at h
          rcases h with h | h
          · exact Ev.noConfusion h
          · rcases mem_dashboardTry h with ⟨s, h'⟩ | h' | ⟨s, h'⟩ | ⟨s, h'⟩ <;>
              exact Ev.noConfusion h'
        · simpa using hd
      · rcases mem_tokenPart h with h | h | ⟨s, h⟩ | ⟨s, h⟩ | h <;>
          exact Ev.noConfusion h

theorem dashboardBranch_mem_run_imp {e : BotJsEnv}
    (h : Ev.dashboardBranch ∈ botJsRun e) :
    (botJsClient e).dashboardEnabled = true := by
  rcases mem_botJsRun h with h | h | h | ⟨s, h⟩ | h | h | h | h | h
  any_goals exact Ev.noConfusion h
  · rcases mem_loadPart h with h | h | h | ⟨s, h⟩ <;> exact Ev.noConfusion h
  · exact dashboardBranch_mem_mainTry_imp h

theorem dbBranch_mem_run_imp {e : BotJsEnv}
    (h : Ev.dbBranch ∈ botJsRun e) :
    (botJsClient e).dashboardEnabled = false := by
  rcases mem_botJsRun h with h | h | h | ⟨s, h⟩ | h | h | h | h | h
  any_goals exact Ev.noConfusion h
  · rcases mem_loadPart h with h | h | h | ⟨s, h⟩ <;> exact Ev.noConfusion h
  · exact dbBranch_mem_mainTry_imp h

theorem dashboardStep_mem_tryLaunchDashboard (e : P0Env) :
    Ev.dashboardStep ∈ tryLaunchDashboard e := by
  unfold tryLaunchDashboard
  exact List.mem_cons_self _ _

/-- C7 counterexample: in `src/bot.js`, a run whose update check throws
reaches neither the dashboard branch nor the database branch, so it is not
the case that exactly one of the two is attempted on every run. -/
theorem claim7_counterexample :
    Ev.dashboardBranch ∉ botJsRun c7Env ∧ Ev.dbBranch ∉ botJsRun c7Env := by
  decide

/-- C7 (amended): in `src/bot.js` the two branches are mutually exclusive on
every run — never both — and on every run that passes validation and whose
update check does not throw, exactly one is attempted, selected by the
dashboard-enabled flag of the constructed client; in `src/unnamed/part_000`
the database-init step runs unconditionally and the dashboard attempt runs
independently (both steps occur on every run whose client module resolves). -/
theorem claim7_branch_exclusivity (e : BotJsEnv) (e2 : P0Env)
    (hv : (e.validatorResolves && e.validatorThrows) = false)
    (hu : (e.updatesResolves && e.updateThrows) = false)
    (h3 : e2.botClientResolves = true) :
    (∀ e' : BotJsEnv, ¬(Ev.dashboardBranch ∈ botJsRun e' ∧ Ev.dbBranch ∈ botJsRun e')) ∧
    (Ev.dashboardBranch ∈ botJsRun e ↔ (botJsClient e).dashboardEnabled = true) ∧
    (Ev.dbBranch ∈ botJsRun e ↔ (botJsClient e).dashboardEnabled = false) ∧
    Ev.dbStep ∈ part000Run e2 ∧ Ev.dashboardStep ∈ part000Run e2 := by
  refine ⟨?_, ⟨?_, ?_⟩, ⟨?_, ?_⟩, ?_, ?_⟩
  · rintro e' ⟨h1, h2⟩
    have f1 := dashboardBranch_mem_run_imp h1
    have f2 := dbBranch_mem_run_imp h2
    rw [f1] at f2
    exact Bool.noConfusion f2
  · exact fun h => dashboardBranch_mem_run_imp h
  · exact fun hd => botJs_mem_run_of_mem_mainTry hv (dashboardBranch_mem_mainTry_of _ hu hd)
  · exact fun h => dbBranch_mem_run_imp h
  · exact fun hd => botJs_mem_run_of_mem_mainTry hv (dbBranch_mem_mainTry_of _ hu hd)
  · exact p0_mem_run_of_mem_rest h3
      (p0_mem_rest_of_mem_mongoose _ (List.mem_cons_self _ _))
  · exact p0_mem_run_of_mem_rest h3
      (p0_mem_rest_of_mem_dashboard _ (dashboardStep_mem_tryLaunchDashboard e2))

/-- C7 witness: the hypotheses are satisfiable at concrete environments. -/
theorem claim7_witness :
    (∀ e' : BotJsEnv, ¬(Ev.dashboardBranch ∈ botJsRun e' ∧ Ev.dbBranch ∈ botJsRun e')) ∧
    (Ev.dashboardBranch ∈ botJsRun c8Env ↔ (botJsClient c8Env).dashboardEnabled = true) ∧
    (Ev.dbBranch ∈ botJsRun c8Env ↔ (botJsClient c8Env).dashboardEnabled = false) ∧
    Ev.dbStep ∈ part000Run (p0BenignEnv "tok") ∧
    Ev.dashboardStep ∈ part000Run (p0BenignEnv "tok") :=
  claim7_branch_exclusivity c8Env (p0BenignEnv "tok") rfl rfl rfl

theorem mainTry_events {x : Ev} {e : BotJsEnv} {c : Client}
    (h : x ∈ botJsMainTry e c) : botJsMainEv x = true := by
  unfold botJsMainTry at h
  rw [List.mem_cons] at h
  rcases h with h | h
  · simp [h, botJsMainEv]
  · by_cases hu : (e.updatesResolves && e.updateThrows) = true
    · rw [if_pos hu] at h
      rcases mem_startupErr h with h | h | h <;> simp [h, botJsMainEv]
    · rw [if_neg hu] at h
      rw [List.mem_append] at h
      rcases h with h | h
      · by_cases hd : c.dashboardEnabled = true
        · rw [if_pos hd] at h
          rw [List.mem_cons] at h
          rcases h with h | h
          · simp [h, botJsMainEv]
          · rcases mem_dashboardTry h with ⟨s, h⟩ | h | ⟨s, h⟩ | ⟨s, h⟩ <;>
              simp [h, botJsMainEv]
        · rw [if_neg hd] at h
          rw [List.mem_cons] at h
          rcases h with h | h
          · simp [h, botJsMainEv]
          · rcases mem_dbTry h with h | ⟨s, h⟩ <;> simp [h, botJsMainEv]
      · rcases mem_tokenPart h with h | h | ⟨s, h⟩ | ⟨s, h⟩ | h <;>
          simp [h, botJsMainEv]

theorem installUncaught_not_mem_botJsRun (e : BotJsEnv) :
    Ev.installUncaughtException ∉ botJsRun e := by
  intro hx
  rcases mem_botJsRun hx with h | h | h | ⟨s, h⟩ | h | h | h | h | h
  any_goals exact Ev.noConfusion h
  · rcases mem_loadPart h with h | h | h | ⟨s, h⟩ <;> exact Ev.noConfusion h
  · have hcl := mainTry_events h
    simp [botJsMainEv] at hcl

theorem installUR_mem_botJsRun (e : BotJsEnv)
    (hv : (e.validatorResolves && e.validatorThrows) = false) :
    Ev.installUnhandledRejection ∈ botJsRun e := by
  unfold botJsRun
  simp [hv, List.mem_cons, List.mem_append]

theorem installs_mem_p0Rest (e : P0Env) (c : Client) :
    Ev.installUnhandledRejection ∈ p0Rest e c ∧
      Ev.installUncaughtException ∈ p0Rest e c := by
  constructor <;> simp [p0Rest, List.mem_append, List.mem_cons]

theorem p0_mem_run_of_mem_rest_fb {x : Ev} {e : P0Env}
    (hb : e.botClientResolves = false) (hd : e.discordResolves = true)
    (hm : x ∈ p0Rest e (fallbackClient e.fallbackLoginThrows)) :
    x ∈ part000Run e := by
  unfold part000Run
  simp only [hb, Bool.false_eq_true, if_false, hd, if_true, List.mem_cons]
  tauto

theorem installs_mem_part000Run (e : P0Env)
    (h23 : (e.botClientResolves || e.discordResolves) = true) :
    Ev.installUnhandledRejection ∈ part000Run e ∧
      Ev.installUncaughtException ∈ part000Run e := by
  by_cases hb : e.botClientResolves = true
  · exact ⟨p0_mem_run_of_mem_rest hb (installs_mem_p0Rest e _).1,
      p0_mem_run_of_mem_rest hb (installs_mem_p0Rest e _).2⟩
  · have hb2 : e.botClientResolves = false := by simpa using hb
    have hd : e.discordResolves = true := by simpa [hb2] using h23
    exact ⟨p0_mem_run_of_mem_rest_fb hb2 hd (installs_mem_p0Rest e _).1,
      p0_mem_run_of_mem_rest_fb hb2 hd (installs_mem_p0Rest e _).2⟩

theorem p0HandlerLog_no_exit (msg : String) (o : LoggerObs) (l : List Ev)
    (hl : p0HandlerLog msg o = Except.ok l) : exitCount l = 0 := by
  unfold p0HandlerLog at hl
  split_ifs at hl <;>
    first
      | exact Except.noConfusion hl
      | (injection hl with h2; rw [← h2]; rfl)

/-- C8 counterexample: `src/bot.js` installs the unhandled-async-failure
handler but never installs an uncaught-synchronous-exception handler, so it
is not the case that every run installs two process-wide handlers. -/
theorem claim8_counterexample :
    Ev.installUnhandledRejection ∈ botJsRun c8Env ∧
      Ev.installUncaughtException ∉ botJsRun c8Env := by
  decide

/-- C8 (amended): `src/unnamed/part_000` installs both process-wide handlers
on every run whose client resolution succeeds, while `src/bot.js` installs
only the unhandled-async-failure handler (never an uncaught-exception
handler); the installed handlers only log — routing through the client logger
when available and a console fallback otherwise — and never emit a process
exit. -/
theorem claim8_process_handlers (e : BotJsEnv) (e2 : P0Env) (o : LoggerObs)
    (hv : (e.validatorResolves && e.validatorThrows) = false)
    (h23 : (e2.botClientResolves || e2.discordResolves) = true) :
    (Ev.installUnhandledRejection ∈ botJsRun e ∧
      (∀ e' : BotJsEnv, Ev.installUncaughtException ∉ botJsRun e')) ∧
    (Ev.installUnhandledRejection ∈ part000Run e2 ∧
      Ev.installUncaughtException ∈ part000Run e2) ∧
    (exitCount (botJsRejectionHandler o) = 0 ∧ (botJsRejectionHandler o).length = 1) ∧
    (∀ l, p0RejectionHandler o = Except.ok l → exitCount l = 0) ∧
    (∀ l, p0UncaughtHandler o = Except.ok l → exitCount l = 0) := by
  refine ⟨⟨installUR_mem_botJsRun e hv, installUncaught_not_mem_botJsRun⟩,
    installs_mem_part000Run e2 h23, ?_, ?_, ?_⟩
  · unfold botJsRejectionHandler botJsRejectionBody
    split_ifs <;> exact ⟨rfl, rfl⟩
  · exact fun l hl => p0HandlerLog_no_exit _ o l hl
  · exact fun l hl => p0HandlerLog_no_exit _ o l hl

/-- C8 witness: the hypotheses are satisfiable at concrete environments. -/
theorem claim8_witness :
    (Ev.installUnhandledRejection ∈ botJsRun c8Env ∧
      (∀ e' : BotJsEnv, Ev.installUncaughtException ∉ botJsRun e')) ∧
    (Ev.installUnhandledRejection ∈ part000Run (p0BenignEnv "tk") ∧
      Ev.installUncaughtException ∈ part000Run (p0BenignEnv "tk")) ∧
    (exitCount (botJsRejectionHandler ⟨true, true, true, true, true⟩) = 0 ∧
      (botJsRejectionHandler ⟨true, true, true, true, true⟩).length = 1) ∧
    (∀ l, p0RejectionHandler ⟨true, true, true, true, true⟩ = Except.ok l →
      exitCount l = 0) ∧
    (∀ l, p0UncaughtHandler ⟨true, true, true, true, true⟩ = Except.ok l →
      exitCount l = 0) :=
  claim8_process_handlers c8Env (p0BenignEnv "tk") ⟨true, true, true, true, true⟩ rfl rfl

theorem noLoginErr_mem_p0LoginPart {e : P0Env} (c : Client)
    (h4 : c.hasLogin = false) (h6 : (p0TokenOf e).isSome = true) :
    Ev.consoleError "client.login is not a function. Ensure your BotClient extends discord.js Client or provides login(token)." ∈ p0LoginPart e c := by
  unfold p0LoginPart
  cases ht : p0TokenOf e with
  | none => rw [ht] at h6; simp at h6
  | some t => simp [h4]

theorem loginCall_not_mem_p0LoginPart_of_no_login {e : P0Env} (c : Client)
    (h4 : c.hasLogin = false) : Ev.loginCall ∉ p0LoginPart e c := by
  unfold p0LoginPart
  cases ht : p0TokenOf e with
  | none => simp
  | some t => simp [h4]

theorem loginCall_not_mem_p0Rest_of {e : P0Env} (c : Client)
    (hL : Ev.loginCall ∉ p0LoginPart e c) : Ev.loginCall ∉ p0Rest e c := by
  simp only [p0Rest, List.mem_append, List.mem_cons]
  simp [loginCall_not_mem_p0ValidatePart e, loginCall_not_mem_p0UpdatePart e,
    loginCall_not_mem_p0MongoosePart e, loginCall_not_mem_tryLoadCommands c e,
    loginCall_not_mem_tryLoadEvents c e, loginCall_not_mem_registerEventsPart c e,
    loginCall_not_mem_tryLaunchDashboard e, hL]

theorem p0_loginCall_not_mem_run_of {e : P0Env} (h3 : e.botClientResolves = true)
    (hL : Ev.loginCall ∉ p0LoginPart e e.realClient) :
    Ev.loginCall ∉ part000Run e := by
  unfold part000Run
  simp only [h3, if_true, List.mem_cons]
  rintro (h | h | h)
  · exact Ev.noConfusion h
  · exact Ev.noConfusion h
  · exact loginCall_not_mem_p0Rest_of _ hL h

/-- C9: in `src/unnamed/part_000`, when a token is present but the
constructed client exposes no login function, the script logs the
login-is-not-a-function error and completes without calling `process.exit`:
the trace has no exit event and no login call. -/
theorem claim9_no_login_fn (e : P0Env)
    (h3 : e.botClientResolves = true) (h4 : e.realClient.hasLogin = false)
    (h6 : (p0TokenOf e).isSome = true) :
    Ev.consoleError "client.login is not a function. Ensure your BotClient extends discord.js Client or provides login(token)." ∈ part000Run e ∧
    Ev.loginCall ∉ part000Run e ∧ exitCount (part000Run e) = 0 := by
  refine ⟨?_, ?_, ?_⟩
  · exact p0_mem_run_of_mem_rest h3
      (p0_mem_rest_of_mem_login _ (noLoginErr_mem_p0LoginPart _ h4 h6))
  · exact p0_loginCall_not_mem_run_of h3
      (loginCall_not_mem_p0LoginPart_of_no_login _ h4)
  · rw [exitCount_part000Run e h3]
    exact exitCount_p0LoginPart_of_no_login _ h4 h6

/-- C9 witness: the hypotheses are satisfiable at a concrete environment. -/
theorem claim9_witness :
    Ev.consoleError "client.login is not a function. Ensure your BotClient extends discord.js Client or provides login(token)." ∈ part000Run c9Env ∧
    Ev.loginCall ∉ part000Run c9Env ∧ exitCount (part000Run c9Env) = 0 :=
  claim9_no_login_fn c9Env rfl rfl rfl

/-- C10: the bot.js `unhandledRejection` handler is total — for every client
state (client absent, logger absent, `logger.error` not a function, or
`logger.error` throwing) it produces exactly one log event and no process
exit; when the logging body throws, the catch falls back to the console. -/
theorem claim10_rejection_handler_total (o : LoggerObs) :
    exitCount (botJsRejectionHandler o) = 0 ∧
    (botJsRejectionHandler o).length = 1 ∧
    ((botJsRejectionBody o).isOk = false →
      botJsRejectionHandler o = [Ev.consoleError "Error logging unhandledRejection:"]) ∧
    ((o.clientTruthy && o.loggerTruthy && o.errorIsFn) = false →
      botJsRejectionHandler o = [Ev.consoleError "unhandledRejection"]) ∧
    ((o.clientTruthy && o.loggerTruthy && o.errorIsFn) = true →
      o.errorThrows = false →
      botJsRejectionHandler o = [Ev.clientError "unhandledRejection"]) := by
  cases o with
  | mk ct lt fn th rt =>
    revert ct lt fn th rt
    decide

/-- C10 witness: the handler at a throwing `logger.error` falls back to the
console and returns normally. -/
theorem claim10_witness :
    botJsRejectionHandler ⟨true, true, true, true, true⟩ =
      [Ev.consoleError "Error logging unhandledRejection:"] :=
  (claim10_rejection_handler_total ⟨true, true, true, true, true⟩).2.2.1 rfl
